import Mathlib

/-!
Shallow embedding of the reconciliation loop and job monitor of
`src/main-controller.js` (tiktok-main-controller).

Network effects are modelled by environments of oracles: each oracle field
gives the outcome the corresponding `axios`/`https` call would have had
during the tick (`none` standing for a transport failure/timeout).  The
HTTP calls the controller issues to worker instances are collected in a
`Call` list so that claims about which calls a tick issues are statable.
JavaScript `Map`s are modelled as association lists, JS objects as
structures (fields a given code path never assigns are `Option`s that stay
`none`), timestamps (`new Date()` / `Date.now()`) as a `Nat` parameter
`now`, and JS numbers (all integral here) as `Int`.
-/

namespace Controller

/-- A worker-directed HTTP call issued during a tick: `GET {url}/status`,
`POST {url}/start` (with the `mode` field of the request body), or
`POST {url}/stop`; identified by the instance id. -/
inductive Call where
  | getStatus (id : String)
  | start (id : String) (mode : String)
  | stop (id : String)
  deriving DecidableEq

/-- Does a call hit a worker's `/start` endpoint? -/
def isStartCall : Call → Bool
  | .start _ _ => true
  | _ => false

/-- Does a call hit a worker's `/stop` endpoint? -/
def isStopCall : Call → Bool
  | .stop _ => true
  | _ => false

/-- An entry of the instance list returned by the auth server
(`getInstancesFromAuthServer` / `getInstancesForSystem`). -/
structure Instance where
  id : String
  url : String
  enabled : Bool
  deriving DecidableEq

/-- The JSON body a worker's `GET /status` returns:
`{running, success, reqs, rps}`. -/
structure WStatus where
  running : Bool
  success : Int := 0
  reqs : Int := 0
  rps : Int := 0
  deriving DecidableEq

/-- A value of the `permanentOnlineBots` map (see the object literals in
`keepAllBotsPermanentlyOnline`).  `critical` and `lastError` are absent
from the freshly created object, i.e. `false` / `none`. -/
structure BotInfo where
  instanceId : String
  instanceUrl : String
  firstSeen : Nat
  lastSeen : Nat
  restartCount : Nat
  alwaysOnline : Bool
  currentStatus : Option WStatus := none
  critical : Bool := false
  lastError : Option String := none
  deriving DecidableEq

/-- Association-list lookup, modelling `Map.prototype.get`. -/
def alookup {α : Type} : List (String × α) → String → Option α
  | [], _ => none
  | (k, v) :: rest, key => if k = key then some v else alookup rest key

/-- Association-list update, modelling `Map.prototype.set` (replaces the
existing binding or appends a new one). -/
def aset {α : Type} : List (String × α) → String → α → List (String × α)
  | [], key, v => [(key, v)]
  | (k, w) :: rest, key, v =>
      if k = key then (key, v) :: rest else (k, w) :: aset rest key v

/-- Outcomes of the network calls one reconciliation tick can make for one
instance: the status fetch (`none` = request failed), the `/start` call's
outcome, and the error message carried by a failed `/start`. -/
structure RecEnv where
  statusOf : String → Option WStatus
  startOk : String → Bool
  startErr : String → String

/-- The object literal inserted into `permanentOnlineBots` when an
instance is first seen during a tick. -/
def freshBotInfo (inst : Instance) (now : Nat) : BotInfo :=
  { instanceId := inst.id
    instanceUrl := inst.url
    firstSeen := now
    lastSeen := now
    restartCount := 0
    alwaysOnline := true }

/-- Body of the `for (const instance of instances)` loop of
`keepAllBotsPermanentlyOnline` (src/main-controller.js lines 435-533):
returns the updated `permanentOnlineBots` map and the worker calls issued
for this instance.  The status fetch is attempted unconditionally; on
success the record is created/refreshed and an idle enabled bot gets a
`mode:'permanent'` start; on fetch failure a `mode:'permanent_recovery'`
start is attempted, incrementing `restartCount` on success and setting
`critical`/`lastError` on failure. -/
def recProcessInstance (env : RecEnv) (now : Nat)
    (bots : List (String × BotInfo)) (inst : Instance) :
    List (String × BotInfo) × List Call :=
  match env.statusOf inst.id with
  | some st =>
      let bots1 :=
        match alookup bots inst.id with
        | some _ => bots
        | none => aset bots inst.id (freshBotInfo inst now)
      let info := (alookup bots1 inst.id).getD (freshBotInfo inst now)
      let info1 := { info with lastSeen := now, currentStatus := some st }
      let bots2 := aset bots1 inst.id info1
      if !st.running && inst.enabled then
        if env.startOk inst.id then
          (aset bots2 inst.id { info1 with restartCount := info1.restartCount + 1 },
           [Call.getStatus inst.id, Call.start inst.id "permanent"])
        else
          (bots2, [Call.getStatus inst.id, Call.start inst.id "permanent"])
      else
        (bots2, [Call.getStatus inst.id])
  | none =>
      let info := (alookup bots inst.id).getD (freshBotInfo inst now)
      if env.startOk inst.id then
        (aset bots inst.id
           { info with restartCount := info.restartCount + 1, lastSeen := now },
         [Call.getStatus inst.id, Call.start inst.id "permanent_recovery"])
      else
        (aset bots inst.id
           { info with critical := true, lastError := some (env.startErr inst.id) },
         [Call.getStatus inst.id, Call.start inst.id "permanent_recovery"])

/-- One full reconciliation tick (`keepAllBotsPermanentlyOnline`) over the
fetched instance list, threading the `permanentOnlineBots` map and
accumulating the issued calls in order. -/
def keepAllBotsPermanentlyOnline (env : RecEnv) (now : Nat)
    (instances : List Instance) (bots : List (String × BotInfo)) :
    List (String × BotInfo) × List Call :=
  instances.foldl
    (fun acc inst =>
      let r := recProcessInstance env now acc.1 inst
      (r.1, acc.2 ++ r.2))
    (bots, [])

/-- The stats object of `extractStatsFromHTML` / `getFallbackStats`. -/
structure Stats where
  views : Int
  likes : Int
  comments : Int
  author : String
  title : String
  resolved : Bool
  resolvedVideoId : Option String
  deriving DecidableEq

/-- Model of `getFallbackStats` (src/main-controller.js lines 775-785):
the object substituted whenever the TikTok stats fetch fails.  Note
`views := 0`. -/
def getFallbackStats : Stats :=
  { views := 0
    likes := 0
    comments := 0
    author := "Unknown"
    title := "No Title"
    resolved := false
    resolvedVideoId := none }

/-- Outcomes of the network calls one monitor tick / progress query can
make: each assigned worker's status fetch, each `/stop` outcome, and the
TikTok stats fetch per video id (`none` = the `https` request to
tiktok.com failed or timed out; `some s` = the page was fetched and
`extractStatsFromHTML` produced `s`). -/
structure MonEnv where
  instStatus : String → Option WStatus
  stopOk : String → Bool
  statsFetch : String → Option Stats

/-- Model of `getTikTokVideoStats` for a `STANDARD` video id
(src/main-controller.js lines 630-666): on success the stats are stamped
`resolved`; on failure the promise resolves with `getFallbackStats()` — it
never rejects. -/
def getTikTokVideoStats (env : MonEnv) (videoId : String) : Stats :=
  match env.statsFetch videoId with
  | some s => { s with resolved := true, resolvedVideoId := some videoId }
  | none => getFallbackStats

/-- An element of a tracked job's `instances` array (see the object literal
in the `/api/start-all` handler).  `status` holds the source's string
values `"starting"`, `"running"`, `"stopped"`, `"failed"`, `"offline"`;
`rps` is absent until first written, i.e. `0` for the aggregations. -/
structure JobInstance where
  id : String
  url : String
  status : String
  success : Int
  requests : Int
  rps : Int := 0
  deriving DecidableEq

/-- A value of the `progressTracker` map, per the object literal in the
`/api/start-all` handler (src/main-controller.js lines 1413-1434).
`status` and `completedAt` are fields this file's code never assigns (the
literal does not contain them and no later line writes them); they are
modelled as `Option`s that the embedded operations always leave `none`. -/
structure Job where
  jobId : String
  videoId : String
  videoLink : String
  startViews : Int
  targetViews : Int
  userTarget : Int
  startTime : Nat
  isRunning : Bool
  instances : List JobInstance
  totalSuccess : Int
  totalRequests : Int
  currentViews : Int
  lastUpdate : Nat
  checkCount : Nat
  status : Option String := none
  completedAt : Option Nat := none
  deriving DecidableEq

/-- Body of the per-instance loop of `updateInstanceStatuses`
(src/main-controller.js lines 1099-1119): only instances whose recorded
status is `"running"` are polled; a successful poll refreshes the counters
and flips the status to `"running"`/`"stopped"`, a failed poll marks the
instance `"offline"`. -/
def updateOneInstance (env : MonEnv) (inst : JobInstance) :
    JobInstance × List Call :=
  if inst.status = "running" then
    match env.instStatus inst.id with
    | some st =>
        ({ inst with
             success := st.success
             requests := st.reqs
             rps := st.rps
             status := if st.running then "running" else "stopped" },
         [Call.getStatus inst.id])
    | none => ({ inst with status := "offline" }, [Call.getStatus inst.id])
  else
    (inst, [])

/-- The `updateInstanceStatuses` loop over an instance array, in order. -/
def updInsts (env : MonEnv) : List JobInstance → List JobInstance × List Call
  | [] => ([], [])
  | inst :: rest =>
      let r := updateOneInstance env inst
      let rr := updInsts env rest
      (r.1 :: rr.1, r.2 ++ rr.2)

/-- Model of `updateInstanceStatuses` applied to one job object (the
function's re-`get` of the tracker returns the same object the caller
holds): polls the running instances and recomputes
`totalSuccess`/`totalRequests` by the two `reduce` calls. -/
def updateJobInstances (env : MonEnv) (job : Job) : Job × List Call :=
  let r := updInsts env job.instances
  ({ job with
       instances := r.1
       totalSuccess := r.1.foldl (fun s i => s + i.success) 0
       totalRequests := r.1.foldl (fun s i => s + i.requests) 0 },
   r.2)

/-- Body of the per-instance loop of `stopJobBots` (src/main-controller.js
lines 1131-1145): a `/stop` is posted only to instances whose recorded
status is `"running"`; on success the status becomes `"stopped"`, on
failure the instance is left as it was (the error is only logged). -/
def stopOneInstance (env : MonEnv) (inst : JobInstance) :
    JobInstance × List Call :=
  if inst.status = "running" then
    if env.stopOk inst.id then
      ({ inst with status := "stopped" }, [Call.stop inst.id])
    else
      (inst, [Call.stop inst.id])
  else
    (inst, [])

/-- The `stopJobBots` loop over an instance array, in order. -/
def stopInsts (env : MonEnv) : List JobInstance → List JobInstance × List Call
  | [] => ([], [])
  | inst :: rest =>
      let r := stopOneInstance env inst
      let rr := stopInsts env rest
      (r.1 :: rr.1, r.2 ++ rr.2)

/-- Model of `stopJobBots` (src/main-controller.js lines 1127-1149): stops
the job's recorded-running instances and clears `isRunning`. -/
def stopJobBots (env : MonEnv) (tracker : List (String × Job))
    (jobId : String) : List (String × Job) × List Call :=
  match alookup tracker jobId with
  | none => (tracker, [])
  | some job =>
      let r := stopInsts env job.instances
      (aset tracker jobId { job with instances := r.1, isRunning := false },
       r.2)

/-- One tick of the `setInterval` body of `startEnhancedMonitoring`
(src/main-controller.js lines 1064-1093).  Returns the updated tracker,
the calls issued, and whether the tick cleared its interval (job gone, job
no longer running, or target reached).  `targetViews` is the closure
argument `startEnhancedMonitoring` was invoked with. -/
def monitorTick (env : MonEnv) (now : Nat) (tracker : List (String × Job))
    (jobId videoId : String) (targetViews : Int) :
    List (String × Job) × List Call × Bool :=
  match alookup tracker jobId with
  | none => (tracker, [], true)
  | some job0 =>
      if job0.isRunning then
        let u := updateJobInstances env job0
        let t1 := aset tracker jobId u.1
        let currentStats := getTikTokVideoStats env videoId
        let job2 :=
          { u.1 with
              currentViews := currentStats.views
              lastUpdate := now
              checkCount := u.1.checkCount + 1 }
        let t2 := aset t1 jobId job2
        if targetViews ≤ currentStats.views then
          let t3 := aset t2 jobId { job2 with isRunning := false }
          let s := stopJobBots env t3 jobId
          (s.1, u.2 ++ s.2, true)
        else
          (t2, u.2, false)
      else
        (tracker, [], true)

/-- A sequence of monitor ticks, each with its own call outcomes and clock
value; once a tick clears the interval no later tick runs. -/
def monitorRun (ticks : List (MonEnv × Nat)) (tracker : List (String × Job))
    (jobId videoId : String) (targetViews : Int) :
    List (String × Job) × List Call :=
  match ticks with
  | [] => (tracker, [])
  | (env, now) :: rest =>
      let r := monitorTick env now tracker jobId videoId targetViews
      if r.2.2 then (r.1, r.2.1)
      else
        let r2 := monitorRun rest r.1 jobId videoId targetViews
        (r2.1, r.2.1 ++ r2.2)

/-- The data part of a successful `/api/live-progress` response (the fields
the claims are about; the float-valued `percentage`, `viewsPerMinute` and
`estimatedMinutes` derived numbers are omitted). -/
structure LPData where
  jobId : String
  startViews : Int
  currentViews : Int
  targetViews : Int
  progressCurrent : Int
  progressTarget : Int
  remaining : Int
  totalSuccess : Int
  totalRequests : Int
  deriving DecidableEq

/-- A `/api/live-progress` response: either the not-found shape
`{success:false, isRunning:false, message:'No active job found'}` or the
success shape carrying the job snapshot. -/
structure LPResp where
  success : Bool
  isRunning : Bool
  message : Option String := none
  data : Option LPData := none
  deriving DecidableEq

/-- The `GET /api/live-progress` handler (src/main-controller.js lines
1189-1258): unknown or missing `jobId` yields the not-found response;
otherwise the job's instances are refreshed and the snapshot is returned
with `progress.current = currentViews - startViews` (no clamping in the
source). -/
def liveProgress (env : MonEnv) (tracker : List (String × Job))
    (jobId : Option String) :
    LPResp × List (String × Job) × List Call :=
  match jobId with
  | none =>
      ({ success := false, isRunning := false,
         message := some "No active job found" }, tracker, [])
  | some jid =>
      match alookup tracker jid with
      | none =>
          ({ success := false, isRunning := false,
             message := some "No active job found" }, tracker, [])
      | some job =>
          let u := updateJobInstances env job
          let t1 := aset tracker jid u.1
          let updatedJob := u.1
          ({ success := true
             isRunning := updatedJob.isRunning
             data := some
               { jobId := updatedJob.jobId
                 startViews := updatedJob.startViews
                 currentViews := updatedJob.currentViews
                 targetViews := updatedJob.targetViews
                 progressCurrent := updatedJob.currentViews - updatedJob.startViews
                 progressTarget := updatedJob.userTarget
                 remaining := updatedJob.targetViews - updatedJob.currentViews
                 totalSuccess := updatedJob.totalSuccess
                 totalRequests := updatedJob.totalRequests } },
           t1, [])

/-- The request body of `POST /api/start-all` after the handler's own
numeric coercions: `targetViews` and `currentViews` hold the values of
`parseInt(...) || 0` (so `0` when the field was missing or unparseable,
and possibly negative, since the source validates neither). -/
structure StartReq where
  videoLink : String
  targetViews : Int
  currentViews : Int

/-- Collaborator outcomes for one `POST /api/start-all` request: the
fetched instance list, the result of link parsing plus short-URL
resolution (`extractVideoInfo`/`resolveShortUrl`, external per spec section 1:
`some finalVideoId` for a recognised link), and each instance's `/start`
outcome. -/
structure StartEnv where
  instances : List Instance
  videoInfoOf : String → Option String
  startOk : String → Bool

/-- The `POST /api/start-all` response fields the claims are about. -/
structure StartResp where
  success : Bool
  message : String
  jobId : Option String := none
  finalTarget : Option Int := none
  deriving DecidableEq

/-- Per-instance step of the start loop in `/api/start-all` (lines
1437-1468): after the `/start` call the job is re-fetched and the matching
instance entry is marked `"running"` or `"failed"`. -/
def startMark (env : StartEnv) (jobId : String)
    (t : List (String × Job)) (i : Instance) : List (String × Job) :=
  match alookup t jobId with
  | none => t
  | some j =>
      let newStatus := if env.startOk i.id then "running" else "failed"
      aset t jobId
        { j with
            instances := j.instances.map
              (fun x => if x.id = i.id then { x with status := newStatus } else x) }

/-- The `POST /api/start-all` handler (src/main-controller.js lines
1376-1485): validates only the presence of a link, a nonempty enabled
instance list, and link parseability; computes
`finalTarget = currentViews + targetViews` with no check on the delta;
registers the job in `progressTracker` before starting the workers; and
answers with `success = (at least one /start succeeded)`.  The
`startEnhancedMonitoring` interval registration is the separate
`monitorTick`/`monitorRun` model. -/
def startAll (env : StartEnv) (now : Nat) (req : StartReq)
    (tracker : List (String × Job)) :
    StartResp × List (String × Job) × List Call :=
  if req.videoLink = "" then
    ({ success := false, message := "Video link required" }, tracker, [])
  else
    let enabledInstances := env.instances.filter (fun i => i.enabled)
    if enabledInstances.isEmpty then
      ({ success := false, message := "No bot instances available" }, tracker, [])
    else
      match env.videoInfoOf req.videoLink with
      | none => ({ success := false, message := "Invalid TikTok link" }, tracker, [])
      | some finalVideoId =>
          let finalTarget := req.currentViews + req.targetViews
          let jobId := finalVideoId ++ "_" ++ toString now
          let job0 : Job :=
            { jobId := jobId
              videoId := finalVideoId
              videoLink := req.videoLink
              startViews := req.currentViews
              targetViews := finalTarget
              userTarget := req.targetViews
              startTime := now
              isRunning := true
              instances := enabledInstances.map
                (fun i =>
                  { id := i.id, url := i.url, status := "starting",
                    success := 0, requests := 0 })
              totalSuccess := 0
              totalRequests := 0
              currentViews := req.currentViews
              lastUpdate := now
              checkCount := 0 }
          let t1 := aset tracker jobId job0
          let t2 := enabledInstances.foldl (startMark env jobId) t1
          let successful :=
            (enabledInstances.filter (fun i => env.startOk i.id)).length
          ({ success := decide (0 < successful)
             message := toString successful ++ "/" ++
               toString enabledInstances.length ++ " started"
             jobId := some jobId
             finalTarget := some finalTarget },
           t2,
           enabledInstances.map (fun i => Call.start i.id "persistent"))

/-- Collaborator outcomes for one `POST /api/stop-all` request. -/
structure StopEnv where
  instances : List Instance
  stopOk : String → Bool

/-- The `POST /api/stop-all` response fields. -/
structure StopResp where
  success : Bool
  stopped : Nat
  total : Nat
  deriving DecidableEq

/-- The `POST /api/stop-all` handler (src/main-controller.js lines
1487-1528): posts `/stop` to every enabled instance (failures only
logged), then unconditionally runs `progressTracker.clear()` and
`global.runningJobs = \x7b\x7d`, and responds `success:true` with the count of
stops that succeeded. -/
def stopAll (env : StopEnv) (tracker : List (String × Job))
    (runningJobs : List (String × Job)) :
    StopResp × List (String × Job) × List (String × Job) × List Call :=
  let enabledInstances := env.instances.filter (fun i => i.enabled)
  let stoppedCount := (enabledInstances.filter (fun i => env.stopOk i.id)).length
  ({ success := true, stopped := stoppedCount, total := enabledInstances.length },
   [],
   [],
   enabledInstances.map (fun i => Call.stop i.id))

/-! ### Helper lemmas -/

theorem alookup_aset_self {α : Type} (l : List (String × α)) (k : String) (v : α) :
    alookup (aset l k v) k = some v := by
  induction l with
  | nil => simp [aset, alookup]
  | cons p rest ih =>
      obtain ⟨pk, pv⟩ := p
      simp only [aset]
      by_cases h : pk = k
      · simp [h, alookup]
      · simp [h, alookup, ih]

/-- The record the reconciliation tick would read for an instance before
processing it (the stored one, or the fresh object it would create). -/
def recBefore (now : Nat) (bots : List (String × BotInfo)) (inst : Instance) :
    BotInfo :=
  (alookup bots inst.id).getD (freshBotInfo inst now)

/-- The record stored for an instance after the reconciliation tick
processed it. -/
def recAfter (env : RecEnv) (now : Nat) (bots : List (String × BotInfo))
    (inst : Instance) : BotInfo :=
  (alookup (recProcessInstance env now bots inst).1 inst.id).getD
    (freshBotInfo inst now)

theorem updInsts_filter_start (env : MonEnv) (l : List JobInstance) :
    ((updInsts env l).2).filter isStartCall = [] := by
  induction l with
  | nil => rfl
  | cons inst rest ih =>
      simp only [updInsts, List.filter_append, ih, List.append_nil]
      unfold updateOneInstance
      split
      · split <;> simp [isStartCall]
      · rfl

theorem updInsts_filter_stop (env : MonEnv) (l : List JobInstance) :
    ((updInsts env l).2).filter isStopCall = [] := by
  induction l with
  | nil => rfl
  | cons inst rest ih =>
      simp only [updInsts, List.filter_append, ih, List.append_nil]
      unfold updateOneInstance
      split
      · split <;> simp [isStopCall]
      · rfl

theorem stopInsts_filter_start (env : MonEnv) (l : List JobInstance) :
    ((stopInsts env l).2).filter isStartCall = [] := by
  induction l with
  | nil => rfl
  | cons inst rest ih =>
      simp only [stopInsts, List.filter_append, ih, List.append_nil]
      unfold stopOneInstance
      split
      · split <;> simp [isStartCall]
      · rfl

theorem stopInsts_calls (env : MonEnv) (l : List JobInstance) :
    (stopInsts env l).2 =
      (l.filter (fun i => i.status = "running")).map (fun i => Call.stop i.id) := by
  induction l with
  | nil => rfl
  | cons inst rest ih =>
      simp only [stopInsts, ih, List.filter_cons]
      unfold stopOneInstance
      by_cases h : inst.status = "running"
      · simp only [h, if_true, decide_True, List.map_cons]
        split <;> simp
      · simp [h]

theorem filter_isStop_map_stop (xs : List JobInstance) :
    ((xs.map (fun i => Call.stop i.id)).filter isStopCall) =
      xs.map (fun i => Call.stop i.id) := by
  induction xs with
  | nil => rfl
  | cons x rest ih => simp [isStopCall, ih]

theorem updateJobInstances_filter_start (env : MonEnv) (job : Job) :
    ((updateJobInstances env job).2).filter isStartCall = [] :=
  updInsts_filter_start env job.instances

theorem updateJobInstances_filter_stop (env : MonEnv) (job : Job) :
    ((updateJobInstances env job).2).filter isStopCall = [] :=
  updInsts_filter_stop env job.instances

theorem stopJobBots_filter_start (env : MonEnv) (t : List (String × Job))
    (jid : String) :
    ((stopJobBots env t jid).2).filter isStartCall = [] := by
  unfold stopJobBots
  cases h : alookup t jid <;> simp [stopInsts_filter_start]

theorem monitorTick_filter_start (env : MonEnv) (now : Nat)
    (tracker : List (String × Job)) (jid vid : String) (target : Int) :
    ((monitorTick env now tracker jid vid target).2.1).filter isStartCall = [] := by
  unfold monitorTick
  cases h : alookup tracker jid with
  | none => rfl
  | some job0 =>
      by_cases hr : job0.isRunning
      · simp only [hr, if_true]
        split
        · rw [List.filter_append, updateJobInstances_filter_start,
            stopJobBots_filter_start, List.append_nil]
        · exact updateJobInstances_filter_start env job0
      · simp [hr]

/-! ### Claim C2 — disabled workers and the reconciliation tick -/

/-- A disabled instance, and a tick during which its status fetch would
succeed and report a running bot. -/
def c2Inst : Instance := { id := "d1", url := "http://d1", enabled := false }

/-- Call outcomes for the C2 scenario tick. -/
def c2Env : RecEnv :=
  { statusOf := fun _ => some { running := true }
    startOk := fun _ => true
    startErr := fun _ => "" }

/-- C2 counterexample: a reconciliation tick over a single worker with
`enabled = false` does issue a `GetStatus` call to it, and does create and
mutate its record (`lastSeen` is stamped with the tick's clock), contrary
to the claim that a disabled worker is skipped entirely. -/
theorem c2_counterexample :
    (keepAllBotsPermanentlyOnline c2Env 7 [c2Inst] []).2 = [Call.getStatus "d1"] ∧
    ((alookup (keepAllBotsPermanentlyOnline c2Env 7 [c2Inst] []).1 "d1").map
        BotInfo.lastSeen) = some 7 := by
  constructor <;> rfl

/-- C2 amended: the tick fetches status from every instance regardless of
`enabled`; the `enabled` flag only gates the idle auto-start, so a
disabled worker whose fetch succeeds receives exactly the status call,
while a disabled worker whose fetch fails also receives a recovery
`Start`. -/
theorem c2_amended (env : RecEnv) (now : Nat)
    (bots : List (String × BotInfo)) (inst : Instance)
    (hdis : inst.enabled = false) :
    (recProcessInstance env now bots inst).2 =
      (match env.statusOf inst.id with
       | some _ => [Call.getStatus inst.id]
       | none => [Call.getStatus inst.id, Call.start inst.id "permanent_recovery"]) := by
  unfold recProcessInstance
  cases h : env.statusOf inst.id with
  | some st => simp [hdis]
  | none => cases hok : env.startOk inst.id <;> simp [hok]

/-- C2 witness: the amended theorem applied to the concrete disabled
instance of the scenario. -/
theorem c2_witness :
    c2Inst.enabled = false ∧
    (recProcessInstance c2Env 7 [] c2Inst).2 =
      (match c2Env.statusOf c2Inst.id with
       | some _ => [Call.getStatus c2Inst.id]
       | none => [Call.getStatus c2Inst.id, Call.start c2Inst.id "permanent_recovery"]) :=
  ⟨rfl, c2_amended c2Env 7 [] c2Inst rfl⟩

/-! ### Claim C7 — start attempt after a failed status fetch -/

/-- The worker of the spec's C7 scenario. -/
def c7Inst : Instance := { id := "w1", url := "http://w1", enabled := true }

/-- Call outcomes for the C7 scenario: the status fetch times out and the
subsequent start succeeds. -/
def c7Env : RecEnv :=
  { statusOf := fun _ => none
    startOk := fun _ => true
    startErr := fun _ => "timeout of 25000ms exceeded" }

/-- C7: when an enabled worker's status fetch fails, the tick attempts a
recovery `Start`; if the start succeeds the record gets
`restartCount + 1` and a fresh `lastSeen` and (for a worker that was not
already critical) stays non-critical; if the start fails the record gets
`critical = true` and the failure message in `lastError`. -/
theorem c7_unreachable_restart (env : RecEnv) (now : Nat)
    (bots : List (String × BotInfo)) (inst : Instance)
    (_hen : inst.enabled = true)
    (hfail : env.statusOf inst.id = none)
    (hcrit : (recBefore now bots inst).critical = false) :
    (recProcessInstance env now bots inst).2 =
      [Call.getStatus inst.id, Call.start inst.id "permanent_recovery"] ∧
    recAfter env now bots inst =
      (if env.startOk inst.id then
        { recBefore now bots inst with
            restartCount := (recBefore now bots inst).restartCount + 1
            lastSeen := now }
       else
        { recBefore now bots inst with
            critical := true
            lastError := some (env.startErr inst.id) }) ∧
    (recAfter env now bots inst).critical = !(env.startOk inst.id) := by
  unfold recAfter recBefore recProcessInstance
  rw [hfail]
  unfold recBefore at hcrit
  cases hok : env.startOk inst.id <;>
    simp [hok, alookup_aset_self, hcrit]

/-- C7 witness: the theorem applied to the spec's scenario worker on
tick 1, with an empty bot table and a succeeding start. -/
theorem c7_witness :
    (c7Inst.enabled = true ∧ c7Env.statusOf c7Inst.id = none ∧
      (recBefore 1 [] c7Inst).critical = false) ∧
    ((recProcessInstance c7Env 1 [] c7Inst).2 =
      [Call.getStatus c7Inst.id, Call.start c7Inst.id "permanent_recovery"] ∧
    recAfter c7Env 1 [] c7Inst =
      (if c7Env.startOk c7Inst.id then
        { recBefore 1 [] c7Inst with
            restartCount := (recBefore 1 [] c7Inst).restartCount + 1
            lastSeen := 1 }
       else
        { recBefore 1 [] c7Inst with
            critical := true
            lastError := some (c7Env.startErr c7Inst.id) }) ∧
    (recAfter c7Env 1 [] c7Inst).critical = !(c7Env.startOk c7Inst.id)) :=
  ⟨⟨rfl, rfl, rfl⟩, c7_unreachable_restart c7Env 1 [] c7Inst rfl rfl rfl⟩

/-! ### Claim C8 — successful status fetch and the critical flag -/

/-- A worker record left critical by an earlier tick. -/
def c8Bots : List (String × BotInfo) :=
  [("w1",
    { instanceId := "w1"
      instanceUrl := "http://w1"
      firstSeen := 0
      lastSeen := 0
      restartCount := 2
      alwaysOnline := true
      critical := true
      lastError := some "connect ECONNREFUSED" })]

/-- The same worker, enabled. -/
def c8Inst : Instance := { id := "w1", url := "http://w1", enabled := true }

/-- Call outcomes for the C8 scenario: the status fetch now succeeds. -/
def c8Env : RecEnv :=
  { statusOf := fun _ => some { running := true }
    startOk := fun _ => true
    startErr := fun _ => "" }

/-- C8 counterexample: after a tick whose status fetch succeeds, the
worker record keeps `critical = true` and its old `lastError` — the
success branch of the source updates `lastSeen`/`currentStatus` but never
clears `critical` or `lastError`, contrary to the claim. -/
theorem c8_counterexample :
    (recAfter c8Env 9 c8Bots c8Inst).critical = true ∧
    (recAfter c8Env 9 c8Bots c8Inst).lastError = some "connect ECONNREFUSED" ∧
    (recAfter c8Env 9 c8Bots c8Inst).lastSeen = 9 := by
  refine ⟨rfl, rfl, rfl⟩

/-- C8 amended: a successful status fetch updates `lastSeen` and
`currentStatus`, but leaves `critical` and `lastError` exactly as they
were — the flag is never cleared. -/
theorem c8_amended (env : RecEnv) (now : Nat)
    (bots : List (String × BotInfo)) (inst : Instance) (st : WStatus)
    (hst : env.statusOf inst.id = some st) :
    (recAfter env now bots inst).lastSeen = now ∧
    (recAfter env now bots inst).currentStatus = some st ∧
    (recAfter env now bots inst).critical = (recBefore now bots inst).critical ∧
    (recAfter env now bots inst).lastError = (recBefore now bots inst).lastError := by
  unfold recAfter recBefore recProcessInstance
  rw [hst]
  cases hl : alookup bots inst.id with
  | some info =>
      by_cases hc : !st.running && inst.enabled
      · cases hok : env.startOk inst.id <;>
          simp [hl, hc, hok, alookup_aset_self]
      · simp [hl, hc, alookup_aset_self]
  | none =>
      by_cases hc : !st.running && inst.enabled
      · cases hok : env.startOk inst.id <;>
          simp [hl, hc, hok, alookup_aset_self, freshBotInfo]
      · simp [hl, hc, alookup_aset_self, freshBotInfo]

/-- C8 witness: the amended theorem applied to the critical worker of the
scenario, whose status fetch succeeds on tick 9. -/
theorem c8_witness :
    c8Env.statusOf c8Inst.id = some { running := true } ∧
    ((recAfter c8Env 9 c8Bots c8Inst).lastSeen = 9 ∧
    (recAfter c8Env 9 c8Bots c8Inst).currentStatus = some { running := true } ∧
    (recAfter c8Env 9 c8Bots c8Inst).critical = (recBefore 9 c8Bots c8Inst).critical ∧
    (recAfter c8Env 9 c8Bots c8Inst).lastError = (recBefore 9 c8Bots c8Inst).lastError) :=
  ⟨rfl, c8_amended c8Env 9 c8Bots c8Inst { running := true } rfl⟩

/-! ### Claim C1 — restart bound and RESTART_EXHAUSTED -/

/-- A tracked job whose single assigned worker is about to go idle:
`startViews = 1000`, goal `6000`, far from met. -/
def c1Job : Job :=
  { jobId := "v1_0"
    videoId := "v1"
    videoLink := "https://www.tiktok.com/@u/video/1"
    startViews := 1000
    targetViews := 6000
    userTarget := 5000
    startTime := 0
    isRunning := true
    instances := [{ id := "w1", url := "http://w1", status := "running",
                    success := 0, requests := 0 }]
    totalSuccess := 0
    totalRequests := 0
    currentViews := 1000
    lastUpdate := 0
    checkCount := 0 }

/-- The tracker holding the C1 job. -/
def c1Tracker : List (String × Job) := [("v1_0", c1Job)]

/-- Call outcomes for every C1 tick: the assigned worker always reports
`running = false` and the metric stays at 1500, far below the goal. -/
def c1Env : MonEnv :=
  { instStatus := fun _ => some { running := false }
    stopOk := fun _ => true
    statsFetch := fun _ => some
      { views := 1500, likes := 0, comments := 0, author := "u",
        title := "t", resolved := false, resolvedVideoId := none } }

/-- Three monitor ticks (the claim's `MAX_RESTARTS = 3` budget) under the
always-idle worker. -/
def c1Ticks : List (MonEnv × Nat) := [(c1Env, 1), (c1Env, 2), (c1Env, 3)]

/-- C1 counterexample: after three monitor ticks in which the job's only
worker reports `running = false` and the goal is unmet, the job has not
transitioned to any terminal state — `isRunning` is still `true` and no
status field was ever written (in particular not `RESTART_EXHAUSTED`), and
the monitor issued zero `Start` calls, so no `restartAttempts` were ever
performed, contrary to the claimed bounded-restart state machine. -/
theorem c1_counterexample :
    ((alookup (monitorRun c1Ticks c1Tracker "v1_0" "v1" 6000).1 "v1_0").map
        Job.isRunning) = some true ∧
    ((alookup (monitorRun c1Ticks c1Tracker "v1_0" "v1" 6000).1 "v1_0").map
        Job.status) = some none ∧
    ((monitorRun c1Ticks c1Tracker "v1_0" "v1" 6000).2).filter isStartCall = [] := by
  refine ⟨rfl, rfl, rfl⟩

/-- C1 amended: the monitor has no auto-restart mechanism at all — no tick
ever issues a `Start` call (so trivially no more than any bound), there is
no `restartAttempts` counter and no `RESTART_EXHAUSTED` state, and a job
whose workers all stop while the goal is unmet simply remains running
(`isRunning = true`, `status` never written) with no `Start` ever issued
for it. -/
theorem c1_amended :
    (∀ (env : MonEnv) (now : Nat) (tracker : List (String × Job))
       (jid vid : String) (target : Int),
       ((monitorTick env now tracker jid vid target).2.1).filter isStartCall = []) ∧
    ((alookup (monitorRun c1Ticks c1Tracker "v1_0" "v1" 6000).1 "v1_0").map
        Job.isRunning) = some true ∧
    ((alookup (monitorRun c1Ticks c1Tracker "v1_0" "v1" 6000).1 "v1_0").map
        Job.status) = some none :=
  ⟨fun env now tracker jid vid target =>
      monitorTick_filter_start env now tracker jid vid target,
    rfl, rfl⟩

/-! ### Claim C3 — reported progress is not clamped at zero -/

/-- A tracked job whose `currentViews` has fallen below `startViews`
(e.g. after a tick whose stats fetch failed wrote the fallback 0). -/
def c3Job : Job :=
  { jobId := "j3"
    videoId := "v3"
    videoLink := "https://www.tiktok.com/@u/video/3"
    startViews := 1000
    targetViews := 6000
    userTarget := 5000
    startTime := 0
    isRunning := true
    instances := []
    totalSuccess := 0
    totalRequests := 0
    currentViews := 0
    lastUpdate := 0
    checkCount := 3 }

/-- The tracker holding the C3 job. -/
def c3Tracker : List (String × Job) := [("j3", c3Job)]

/-- Call outcomes for the C3 progress query (irrelevant: no instances). -/
def c3Env : MonEnv :=
  { instStatus := fun _ => none
    stopOk := fun _ => true
    statsFetch := fun _ => none }

/-- C3 counterexample: the live-progress handler reports
`progress.current = -1000` for a job with `startViews = 1000` and
`currentViews = 0` — a negative value, not `max 0 (currentViews -
startViews) = 0` as the claim states. -/
theorem c3_counterexample :
    ((liveProgress c3Env c3Tracker (some "j3")).1.data).map LPData.progressCurrent =
      some (-1000) ∧
    max (0 : Int) (-1000) = 0 ∧
    ((-1000 : Int) < 0) := by
  refine ⟨rfl, rfl, by decide⟩

/-- C3 amended: the reported progress is the raw difference
`currentViews - startViews`, with no clamping, and is therefore negative
whenever the refreshed metric value sits below the start value. -/
theorem c3_amended (env : MonEnv) (tracker : List (String × Job))
    (jid : String) (job : Job)
    (hjob : alookup tracker jid = some job) :
    ((liveProgress env tracker (some jid)).1.data).map LPData.progressCurrent =
      some (job.currentViews - job.startViews) := by
  simp only [liveProgress, hjob]
  rfl

/-- C3 witness: the amended theorem applied to the regressed job of the
scenario, yielding the negative progress value. -/
theorem c3_witness :
    alookup c3Tracker "j3" = some c3Job ∧
    ((liveProgress c3Env c3Tracker (some "j3")).1.data).map LPData.progressCurrent =
      some (c3Job.currentViews - c3Job.startViews) :=
  ⟨rfl, c3_amended c3Env c3Tracker "j3" c3Job rfl⟩

/-! ### Claim C5 — completion tick -/

/-- A tracked job with two assigned workers, one recorded `"running"` and
one recorded `"failed"` (its start never succeeded). -/
def c5Job : Job :=
  { jobId := "j5"
    videoId := "v5"
    videoLink := "https://www.tiktok.com/@u/video/5"
    startViews := 1000
    targetViews := 6000
    userTarget := 5000
    startTime := 0
    isRunning := true
    instances := [{ id := "w1", url := "http://w1", status := "running",
                    success := 0, requests := 0 },
                  { id := "w2", url := "http://w2", status := "failed",
                    success := 0, requests := 0 }]
    totalSuccess := 0
    totalRequests := 0
    currentViews := 1000
    lastUpdate := 0
    checkCount := 0 }

/-- The tracker holding the C5 job. -/
def c5Tracker : List (String × Job) := [("j5", c5Job)]

/-- Call outcomes for the C5 completion tick: the metric reaches the goal
value 6000 and the running worker is reachable. -/
def c5Env : MonEnv :=
  { instStatus := fun _ => some { running := true, success := 10, reqs := 20, rps := 1 }
    stopOk := fun _ => true
    statsFetch := fun _ => some
      { views := 6000, likes := 0, comments := 0, author := "u",
        title := "t", resolved := false, resolvedVideoId := none } }

/-- C5 counterexample: on the tick where the metric reaches the goal, the
job does get `isRunning = false` and the interval is cleared, but no
`completedAt` and no `COMPLETED` status are ever written (both stay
unset), and `Stop` is issued only to the worker recorded `"running"` —
the assigned worker recorded `"failed"` receives no `Stop` — contrary to
the claim. -/
theorem c5_counterexample :
    (monitorTick c5Env 3 c5Tracker "j5" "v5" 6000).2.2 = true ∧
    ((alookup (monitorTick c5Env 3 c5Tracker "j5" "v5" 6000).1 "j5").map
        Job.isRunning) = some false ∧
    ((alookup (monitorTick c5Env 3 c5Tracker "j5" "v5" 6000).1 "j5").map
        Job.completedAt) = some none ∧
    ((alookup (monitorTick c5Env 3 c5Tracker "j5" "v5" 6000).1 "j5").map
        Job.status) = some none ∧
    ((monitorTick c5Env 3 c5Tracker "j5" "v5" 6000).2.1).filter isStopCall =
      [Call.stop "w1"] := by
  refine ⟨rfl, rfl, rfl, rfl, rfl⟩

/-- C5 amended: on the first tick whose refreshed metric value reaches the
target the monitor clears its interval (so the job is not scanned again),
sets `isRunning = false`, leaves `status` and `completedAt` untouched, and
issues exactly one `Stop` per assigned worker whose refreshed per-job
status is `"running"` (workers recorded `"failed"`/`"stopped"`/`"offline"`
get none). -/
theorem c5_amended (env : MonEnv) (now : Nat) (tracker : List (String × Job))
    (jid vid : String) (target : Int) (job : Job)
    (hjob : alookup tracker jid = some job)
    (hrun : job.isRunning = true)
    (hgoal : target ≤ (getTikTokVideoStats env vid).views) :
    (monitorTick env now tracker jid vid target).2.2 = true ∧
    ((alookup (monitorTick env now tracker jid vid target).1 jid).map
        Job.isRunning) = some false ∧
    ((alookup (monitorTick env now tracker jid vid target).1 jid).map
        Job.status) = some job.status ∧
    ((alookup (monitorTick env now tracker jid vid target).1 jid).map
        Job.completedAt) = some job.completedAt ∧
    ((monitorTick env now tracker jid vid target).2.1).filter isStopCall =
      ((updateJobInstances env job).1.instances.filter
          (fun i => i.status = "running")).map (fun i => Call.stop i.id) := by
  unfold monitorTick
  rw [hjob]
  simp only [hrun, if_true]
  rw [if_pos hgoal]
  unfold stopJobBots
  rw [alookup_aset_self]
  simp only [alookup_aset_self, List.filter_append,
    updateJobInstances_filter_stop, List.nil_append, stopInsts_calls,
    filter_isStop_map_stop, Option.map_some]
  exact ⟨trivial, rfl, rfl, rfl, trivial⟩

/-- C5 witness: the amended theorem applied to the completion-tick
scenario. -/
theorem c5_witness :
    (alookup c5Tracker "j5" = some c5Job ∧ c5Job.isRunning = true ∧
      (6000 : Int) ≤ (getTikTokVideoStats c5Env "v5").views) ∧
    ((monitorTick c5Env 3 c5Tracker "j5" "v5" 6000).2.2 = true ∧
    ((alookup (monitorTick c5Env 3 c5Tracker "j5" "v5" 6000).1 "j5").map
        Job.isRunning) = some false ∧
    ((alookup (monitorTick c5Env 3 c5Tracker "j5" "v5" 6000).1 "j5").map
        Job.status) = some c5Job.status ∧
    ((alookup (monitorTick c5Env 3 c5Tracker "j5" "v5" 6000).1 "j5").map
        Job.completedAt) = some c5Job.completedAt ∧
    ((monitorTick c5Env 3 c5Tracker "j5" "v5" 6000).2.1).filter isStopCall =
      ((updateJobInstances c5Env c5Job).1.instances.filter
          (fun i => i.status = "running")).map (fun i => Call.stop i.id)) :=
  ⟨⟨rfl, rfl, by decide⟩,
    c5_amended c5Env 3 c5Tracker "j5" "v5" 6000 c5Job rfl rfl (by decide)⟩

/-! ### Claim C6 — metric fetch failure during a monitor tick -/

/-- A tracked job with some accumulated progress
(`currentViews = 1500 > startViews = 1000`). -/
def c6Job : Job :=
  { jobId := "j6"
    videoId := "v6"
    videoLink := "https://www.tiktok.com/@u/video/6"
    startViews := 1000
    targetViews := 6000
    userTarget := 5000
    startTime := 0
    isRunning := true
    instances := []
    totalSuccess := 0
    totalRequests := 0
    currentViews := 1500
    lastUpdate := 0
    checkCount := 4 }

/-- The tracker holding the C6 job. -/
def c6Tracker : List (String × Job) := [("j6", c6Job)]

/-- Call outcomes for the C6 tick: the TikTok stats fetch fails. -/
def c6Env : MonEnv :=
  { instStatus := fun _ => none
    stopOk := fun _ => true
    statsFetch := fun _ => none }

/-- C6 counterexample: on a tick whose metric fetch fails, the monitor
does not skip the job — it writes the fallback stats value 0 into
`currentViews` (regressing it from 1500) and still counts the check;
"unavailable" is treated exactly as zero, contrary to the claim. -/
theorem c6_counterexample :
    ((alookup (monitorTick c6Env 9 c6Tracker "j6" "v6" 6000).1 "j6").map
        Job.currentViews) = some 0 ∧
    getFallbackStats.views = 0 ∧
    ((alookup (monitorTick c6Env 9 c6Tracker "j6" "v6" 6000).1 "j6").map
        Job.checkCount) = some 5 := by
  refine ⟨rfl, rfl, rfl⟩

/-- C6 amended: when the stats fetch fails the tick substitutes
`getFallbackStats` (views 0), overwrites `currentValue` with 0, and still
evaluates the completion decision against that 0 — which for a positive
goal leaves the job running, to be polled again next tick. -/
theorem c6_amended (env : MonEnv) (now : Nat) (tracker : List (String × Job))
    (jid vid : String) (target : Int) (job : Job)
    (hjob : alookup tracker jid = some job)
    (hrun : job.isRunning = true)
    (hfail : env.statsFetch vid = none)
    (hpos : 0 < target) :
    (monitorTick env now tracker jid vid target).2.2 = false ∧
    ((alookup (monitorTick env now tracker jid vid target).1 jid).map
        Job.currentViews) = some 0 ∧
    ((alookup (monitorTick env now tracker jid vid target).1 jid).map
        Job.isRunning) = some true ∧
    ((alookup (monitorTick env now tracker jid vid target).1 jid).map
        Job.checkCount) = some (job.checkCount + 1) := by
  unfold monitorTick getTikTokVideoStats
  rw [hjob]
  simp only [hrun, if_true, hfail]
  rw [if_neg (by simpa [getFallbackStats] using not_le.mpr hpos)]
  simp only [alookup_aset_self, Option.map_some]
  exact ⟨trivial, rfl, congrArg some hrun, rfl⟩

/-- C6 witness: the amended theorem applied to the failed-fetch tick of
the scenario. -/
theorem c6_witness :
    (alookup c6Tracker "j6" = some c6Job ∧ c6Job.isRunning = true ∧
      c6Env.statsFetch "v6" = none ∧ (0 : Int) < 6000) ∧
    ((monitorTick c6Env 9 c6Tracker "j6" "v6" 6000).2.2 = false ∧
    ((alookup (monitorTick c6Env 9 c6Tracker "j6" "v6" 6000).1 "j6").map
        Job.currentViews) = some 0 ∧
    ((alookup (monitorTick c6Env 9 c6Tracker "j6" "v6" 6000).1 "j6").map
        Job.isRunning) = some true ∧
    ((alookup (monitorTick c6Env 9 c6Tracker "j6" "v6" 6000).1 "j6").map
        Job.checkCount) = some (c6Job.checkCount + 1)) :=
  ⟨⟨rfl, rfl, rfl, by decide⟩,
    c6_amended c6Env 9 c6Tracker "j6" "v6" 6000 c6Job rfl rfl rfl (by decide)⟩

/-! ### Claim C4 — no validation of the requested delta at job creation -/

theorem startMark_lookup_field {α : Type} (env : StartEnv) (jid : String)
    (t : List (String × Job)) (i : Instance) (f : Job → α)
    (hf : ∀ (j : Job) (l : List JobInstance), f { j with instances := l } = f j) :
    (alookup (startMark env jid t i) jid).map f = (alookup t jid).map f := by
  unfold startMark
  cases h : alookup t jid with
  | none => simp [h]
  | some j => simp [h, alookup_aset_self, hf]

theorem startMarkLoop_lookup_field {α : Type} (env : StartEnv) (jid : String)
    (f : Job → α)
    (hf : ∀ (j : Job) (l : List JobInstance), f { j with instances := l } = f j) :
    ∀ (l : List Instance) (t : List (String × Job)),
      (alookup (l.foldl (startMark env jid) t) jid).map f = (alookup t jid).map f := by
  intro l
  induction l with
  | nil => intro t; rfl
  | cons i rest ih =>
      intro t
      rw [List.foldl_cons, ih, startMark_lookup_field env jid t i f hf]

/-- Collaborator outcomes for the C4 request: one enabled instance whose
start succeeds, and a link that parses. -/
def c4Env : StartEnv :=
  { instances := [{ id := "i1", url := "http://i1", enabled := true }]
    videoInfoOf := fun _ => some "7106688751857945857"
    startOk := fun _ => true }

/-- A start-all request whose delta is 0, i.e. `goalValue = startValue`. -/
def c4Req : StartReq :=
  { videoLink := "https://www.tiktok.com/@u/video/7106688751857945857"
    targetViews := 0
    currentViews := 1000 }

/-- C4 counterexample: a request with requested delta 0 (so
`goalValue = startValue = 1000`) is not rejected — the handler answers
`success = true` and a job record with `targetViews = startViews = 1000`
is created and tracked, contrary to the claimed `InvalidTarget`
rejection. -/
theorem c4_counterexample :
    (startAll c4Env 5 c4Req []).1.success = true ∧
    ((alookup (startAll c4Env 5 c4Req []).2.1 "7106688751857945857_5").map
        Job.targetViews) = some 1000 ∧
    ((alookup (startAll c4Env 5 c4Req []).2.1 "7106688751857945857_5").map
        Job.startViews) = some 1000 := by
  refine ⟨rfl, rfl, rfl⟩

/-- C4 amended: the handler validates only the link, the instance list and
link parseability; for any parsed link it creates and tracks a job with
`targetViews = currentViews + targetViews` and `startViews = currentViews`
unconditionally — also when the requested delta is zero or negative — and
no `InvalidTarget`-style rejection exists. -/
theorem c4_amended (env : StartEnv) (now : Nat) (req : StartReq)
    (tracker : List (String × Job)) (vid : String)
    (hlink : ¬(req.videoLink = ""))
    (hinst : (env.instances.filter (fun i => i.enabled)).isEmpty = false)
    (hvid : env.videoInfoOf req.videoLink = some vid) :
    ((alookup (startAll env now req tracker).2.1 (vid ++ "_" ++ toString now)).map
        Job.targetViews) = some (req.currentViews + req.targetViews) ∧
    ((alookup (startAll env now req tracker).2.1 (vid ++ "_" ++ toString now)).map
        Job.startViews) = some req.currentViews ∧
    (startAll env now req tracker).1.jobId = some (vid ++ "_" ++ toString now) := by
  unfold startAll
  rw [if_neg hlink]
  simp only [hinst, Bool.false_eq_true, if_false, hvid]
  refine ⟨?_, ?_, trivial⟩
  · rw [startMarkLoop_lookup_field env _ Job.targetViews (fun _ _ => rfl),
      alookup_aset_self]
    rfl
  · rw [startMarkLoop_lookup_field env _ Job.startViews (fun _ _ => rfl),
      alookup_aset_self]
    rfl

/-- C4 witness: the amended theorem applied to the zero-delta request of
the scenario. -/
theorem c4_witness :
    (¬(c4Req.videoLink = "") ∧
      (c4Env.instances.filter (fun i => i.enabled)).isEmpty = false ∧
      c4Env.videoInfoOf c4Req.videoLink = some "7106688751857945857") ∧
    (((alookup (startAll c4Env 5 c4Req []).2.1 ("7106688751857945857" ++ "_" ++ toString 5)).map
        Job.targetViews) = some (c4Req.currentViews + c4Req.targetViews) ∧
    ((alookup (startAll c4Env 5 c4Req []).2.1 ("7106688751857945857" ++ "_" ++ toString 5)).map
        Job.startViews) = some c4Req.currentViews ∧
    (startAll c4Env 5 c4Req []).1.jobId = some ("7106688751857945857" ++ "_" ++ toString 5)) :=
  ⟨⟨by decide, rfl, rfl⟩,
    c4_amended c4Env 5 c4Req [] "7106688751857945857" (by decide) rfl rfl⟩

/-! ### Claim C9 — querying a job after a terminal state -/

/-- A job the monitor completed: goal reached, `isRunning = false`, still
in the tracker. -/
def c9Job : Job :=
  { jobId := "j9"
    videoId := "v9"
    videoLink := "https://www.tiktok.com/@u/video/9"
    startViews := 1000
    targetViews := 6000
    userTarget := 5000
    startTime := 0
    isRunning := false
    instances := []
    totalSuccess := 0
    totalRequests := 0
    currentViews := 6000
    lastUpdate := 3
    checkCount := 7 }

/-- The tracker holding the completed C9 job. -/
def c9Tracker : List (String × Job) := [("j9", c9Job)]

/-- Call outcomes for the C9 progress queries. -/
def c9MEnv : MonEnv :=
  { instStatus := fun _ => none
    stopOk := fun _ => true
    statsFetch := fun _ => none }

/-- Collaborator outcomes for the C9 stop-all request. -/
def c9SEnv : StopEnv :=
  { instances := []
    stopOk := fun _ => true }

/-- C9 counterexample: a completed job is still queryable, but after a
stop-all — the code's only `STOPPED` transition — the tracker is erased,
so the very same `jobId` now yields the not-found response
(`success = false`, `No active job found`) instead of a final snapshot,
contrary to the claim. -/
theorem c9_counterexample :
    (liveProgress c9MEnv c9Tracker (some "j9")).1.success = true ∧
    (liveProgress c9MEnv (stopAll c9SEnv c9Tracker []).2.1 (some "j9")).1.success = false ∧
    (liveProgress c9MEnv (stopAll c9SEnv c9Tracker []).2.1 (some "j9")).1.message =
      some "No active job found" := by
  refine ⟨rfl, rfl, rfl⟩

/-- C9 amended: a status query succeeds exactly when the job is still in
the tracker (so a job completed by the monitor keeps returning its
snapshot, `isRunning` included), but a stop-all erases every job record,
after which any query for a previously tracked `jobId` returns the
not-found response rather than a final snapshot. -/
theorem c9_amended :
    (∀ (env : MonEnv) (tracker : List (String × Job)) (jid : String),
      (liveProgress env tracker (some jid)).1.success = (alookup tracker jid).isSome ∧
      (liveProgress env tracker (some jid)).1.isRunning =
        ((alookup tracker jid).map Job.isRunning).getD false) ∧
    (∀ (menv : MonEnv) (senv : StopEnv)
       (tracker runningJobs : List (String × Job)) (jid : String),
      (liveProgress menv (stopAll senv tracker runningJobs).2.1 (some jid)).1.success = false ∧
      (liveProgress menv (stopAll senv tracker runningJobs).2.1 (some jid)).1.message =
        some "No active job found") := by
  constructor
  · intro env tracker jid
    simp only [liveProgress]
    cases h : alookup tracker jid with
    | none => simp [h]
    | some job => simp only [h]; exact ⟨rfl, rfl⟩
  · intro menv senv tracker runningJobs jid
    exact ⟨rfl, rfl⟩

/-! ### Claim C10 — stop-all erases all job state and reports success -/

/-- A tracked job used to populate the C10 tables. -/
def c10Job : Job :=
  { jobId := "jx"
    videoId := "vx"
    videoLink := "https://www.tiktok.com/@u/video/10"
    startViews := 0
    targetViews := 100
    userTarget := 100
    startTime := 0
    isRunning := true
    instances := []
    totalSuccess := 0
    totalRequests := 0
    currentViews := 0
    lastUpdate := 0
    checkCount := 0 }

/-- Collaborator outcomes for a C10 stop-all on which every per-worker
stop fails. -/
def c10Env : StopEnv :=
  { instances := [{ id := "i1", url := "http://i1", enabled := true }]
    stopOk := fun _ => false }

/-- C10: for every stop-all request, the handler clears the whole progress
tracker and the global running-jobs table (whatever they contained, so
also jobs whose workers were never contacted), posts `Stop` to exactly the
enabled instances, and answers `success = true` with the count of stops
that succeeded — in particular `success = true` with `stopped = 0` when
every per-worker stop fails, as in the concrete scenario. -/
theorem c10_stop_all_clears :
    (∀ (env : StopEnv) (tracker runningJobs : List (String × Job)),
      (stopAll env tracker runningJobs).2.1 = [] ∧
      (stopAll env tracker runningJobs).2.2.1 = [] ∧
      (stopAll env tracker runningJobs).1.success = true ∧
      (stopAll env tracker runningJobs).1.stopped =
        ((env.instances.filter (fun i => i.enabled)).filter
          (fun i => env.stopOk i.id)).length ∧
      (stopAll env tracker runningJobs).2.2.2 =
        (env.instances.filter (fun i => i.enabled)).map (fun i => Call.stop i.id)) ∧
    ((stopAll c10Env [("jx", c10Job)] [("jy", c10Job)]).1.success = true ∧
     (stopAll c10Env [("jx", c10Job)] [("jy", c10Job)]).1.stopped = 0 ∧
     (stopAll c10Env [("jx", c10Job)] [("jy", c10Job)]).2.1 = []) :=
  ⟨fun env tracker runningJobs => ⟨rfl, rfl, rfl, rfl, rfl⟩,
    by refine ⟨rfl, ?_, rfl⟩; rfl⟩

end Controller
